import Mathlib

/-!
Shallow embedding of the Keyvox desktop protocol layer:
the WebSocket protocol client (`websocket.ts`), the protocol frame types
(`protocol.ts`), and the session-state reducer plus reconnection supervisor
(`App.svelte`).  Definitions are transcribed from the TypeScript source;
theorems at the end settle the specification claims.
-/

namespace Keyvox

/-! ### Protocol frame types (protocol.ts) -/

structure ProtocolError where
  code : String
  message : String
deriving DecidableEq

/-- A JSON `request_id` value: the wire type is `string | number | null`;
`none` at the use sites models `null`. -/
inductive RequestId where
  | str (s : String)
  | num (n : Int)
deriving DecidableEq

/-- JavaScript `String(x)` applied to a `request_id` value. -/
def RequestId.jsString : RequestId → String
  | .str s => s
  | .num n => toString n

/-- JavaScript truthiness of a `request_id` value (`""`, `0` and `null`
are falsy; `null` is handled by the `Option` wrapper at use sites). -/
def RequestId.truthy : RequestId → Bool
  | .str s => s ≠ ""
  | .num n => n ≠ 0

/-- `ProtocolResponse` from protocol.ts.  The discriminant field
`type: "response"` is encoded by the `IncomingMessage.response` constructor.
Of the open-ended `result` record the app only ever reads `result.port`
(in `consumeResponse`), kept here as `resultPort`. -/
structure ProtocolResponse where
  protocol_version : String
  timestamp : String
  request_id : Option RequestId
  response_type : String
  ok : Bool
  resultPort : Option Nat := none
  protocolError : Option ProtocolError := none
deriving DecidableEq

structure HistoryEntry where
  id : Int
  created_at : String
  text : String
  duration_ms : Option Int
  backend : String
  model : String
  status : String
deriving DecidableEq

inductive EngineState where
  | idle | recording | processing
deriving DecidableEq

/-- Status strings of `model_download` / `model_download_progress` events. -/
inductive DownloadStatus where
  | starting | resolving | downloading | finalizing | completed | failed
deriving DecidableEq

/-- Status strings of `storage_migration` events. -/
inductive MigrationStatus where
  | starting | copying | verifying | cleanup | completed | failed
deriving DecidableEq

/-- `ServerEvent` from protocol.ts: the tagged union of server-pushed event
frames, discriminated by the JSON `type` field (one constructor per type).
Every constructor carries the `ServerEventBase` field `protocol_version`
first (the `timestamp` base field is never read by the app and is omitted). -/
inductive ServerEvent where
  | state (protocol_version : String) (state : EngineState)
  | transcription (protocol_version : String) (text : String)
      (duration_ms : Option Int) (entry : Option HistoryEntry)
  | history_appended (protocol_version : String) (entry : HistoryEntry)
  | model_download (protocol_version : String) (status : DownloadStatus)
      (backend name message : String) (progress_pct : Option Int)
      (bytes_total bytes_completed bytes_remaining : Option Int)
  | model_download_progress (protocol_version : String) (status : DownloadStatus)
      (backend name message : String) (progress_pct : Int)
      (bytes_total bytes_completed bytes_remaining : Option Int)
  | storage_migration (protocol_version : String) (status : MigrationStatus)
      (target_root message : String) (progress_pct : Int)
      (total_bytes copied_bytes : Option Int)
  | storage_updated (protocol_version : String) (storage_root : String) (persisted : Bool)
  | fatal (protocol_version : String) (message : String)
  | dictionary_updated (protocol_version : String) (key value : String)
  | dictionary_deleted (protocol_version : String) (key : String)
  | shutting_down (protocol_version : String)
deriving DecidableEq

/-- `IncomingMessage = ProtocolResponse | ServerEvent`. -/
inductive IncomingMessage where
  | response (r : ProtocolResponse)
  | event (e : ServerEvent)
deriving DecidableEq

/-- `isProtocolResponse` from protocol.ts: checks `message.type === "response"`;
on the tagged union this is exactly the `response` constructor test
(no `ServerEvent` type string equals `"response"`). -/
def isProtocolResponse : IncomingMessage → Bool
  | .response _ => true
  | .event _ => false

/-! ### WebSocket client (websocket.ts, class KeyvoxWsClient) -/

inductive ConnectionStatus where
  | disconnected | connecting | connected | error
deriving DecidableEq

/-- One `emitStatus(status, detail?)` emission. -/
structure StatusEvent where
  status : ConnectionStatus
  detail : Option String
deriving DecidableEq

/-- The entry stored in the `pending` map for one in-flight request: the model
keeps the correlation id (the map key) and the command `type` captured by the
request's timeout closure; the `resolve`/`reject` callbacks are represented by
the `Outcome` values the operations below deliver, keyed by `requestId`. -/
structure PendingEntry where
  requestId : String
  cmdType : String
deriving DecidableEq

/-- Settlement of one pending request's promise. -/
inductive Outcome where
  | resolved (response : ProtocolResponse)
  | rejected (message : String)
deriving DecidableEq

/-- Outbound command frame: `{ type, request_id, ...payload }` (the payload
fields are opaque to the client logic and omitted). -/
structure CommandFrame where
  type : String
  request_id : String
deriving DecidableEq

/-- Mutable state of a `KeyvoxWsClient`: `ws !== null && readyState === OPEN`
is collapsed into `wsOpen`, `requestCounter` and the `pending` map (a JS `Map`,
modelled as an insertion-ordered association list with unique keys). -/
structure ClientState where
  wsOpen : Bool
  requestCounter : Nat
  pending : List PendingEntry
deriving DecidableEq

def initialClientState : ClientState :=
  { wsOpen := false, requestCounter := 0, pending := [] }

/-- `Map.get` -/
def pendingGet (l : List PendingEntry) (key : String) : Option PendingEntry :=
  l.find? (fun p => p.requestId = key)

/-- `Map.set`: overwrite in place if the key exists, else append
(JS `Map` keeps the original insertion position on overwrite). -/
def pendingSet (l : List PendingEntry) (e : PendingEntry) : List PendingEntry :=
  if l.any (fun p => p.requestId = e.requestId) then
    l.map (fun p => if p.requestId = e.requestId then e else p)
  else
    l ++ [e]

/-- `Map.delete` -/
def pendingDelete (l : List PendingEntry) (key : String) : List PendingEntry :=
  l.filter (fun p => p.requestId ≠ key)

/-- The correlation id generated by `sendCommand`:
`` `req-${++this.requestCounter}` ``. -/
def mkRequestId (counter : Nat) : String :=
  "req-" ++ Nat.repr counter

/-- `sendCommand(type, payload, timeoutMs)` up to its suspension point: the
guard, the fresh correlation id, the frame construction, the registration in
the pending map, and the send.  Timeout expiry and settlement are separate
transitions (`fireTimeout`, `handleMessage`). -/
def sendCommand (s : ClientState) (type : String) :
    Except String (ClientState × CommandFrame) :=
  if ¬ s.wsOpen then
    .error "Socket is not connected"
  else
    let counter := s.requestCounter + 1
    let requestId := mkRequestId counter
    .ok ({ s with
            requestCounter := counter,
            pending := pendingSet s.pending ⟨requestId, type⟩ },
         { type := type, request_id := requestId })

/-- The `setTimeout` callback registered by `sendCommand` firing for
`requestId`: deletes the entry and rejects with
`` `Request timed out: ${type}` ``.  The timer only fires while the entry is
still pending (every path that removes the entry first calls `clearTimeout`),
so the captured command `type` equals the stored entry's `cmdType`. -/
def fireTimeout (s : ClientState) (requestId : String) :
    ClientState × List (String × Outcome) :=
  match pendingGet s.pending requestId with
  | some e =>
      ({ s with pending := pendingDelete s.pending requestId },
       [(requestId, .rejected ("Request timed out: " ++ e.cmdType))])
  | none => (s, [])

/-- A raw inbound frame as seen by `handleMessage(raw)`: `JSON.parse` either
throws (`malformed`) or yields a decoded `IncomingMessage`. -/
inductive RawFrame where
  | malformed
  | frame (m : IncomingMessage)

/-- Everything one `handleMessage` call emits: status emissions, promise
settlements (keyed by correlation id), and the frames handed to `onMessage`. -/
structure HandleResult where
  statusEvents : List StatusEvent := []
  outcomes : List (String × Outcome) := []
  forwarded : List IncomingMessage := []
deriving DecidableEq

/-- The key a response frame is matched under:
`isProtocolResponse(parsed) && parsed.request_id` followed by
`String(parsed.request_id)`. -/
def requestKeyOf (r : ProtocolResponse) : Option String :=
  match r.request_id with
  | some rid => if rid.truthy then some rid.jsString else none
  | none => none

/-- The rejection message for an `ok: false` response:
`parsed.error?.message ?? "Unknown protocol error"`. -/
def serverErrorMessage (r : ProtocolResponse) : String :=
  match r.protocolError with
  | some e => e.message
  | none => "Unknown protocol error"

/-- `handleMessage(raw)` from websocket.ts. -/
def handleMessage (s : ClientState) (raw : RawFrame) : ClientState × HandleResult :=
  match raw with
  | .malformed =>
      (s, { statusEvents := [⟨.error, some "Received invalid JSON message"⟩] })
  | .frame parsed =>
      let settle : ClientState × List (String × Outcome) :=
        match parsed with
        | .response r =>
            match requestKeyOf r with
            | some requestKey =>
                match pendingGet s.pending requestKey with
                | some p =>
                    ({ s with pending := pendingDelete s.pending requestKey },
                     [(p.requestId,
                       if r.ok then Outcome.resolved r
                       else Outcome.rejected (serverErrorMessage r))])
                | none => (s, [])
            | none => (s, [])
        | .event _ => (s, [])
      (settle.1, { outcomes := settle.2, forwarded := [parsed] })

/-- Everything one `disconnect()` call emits. -/
structure DisconnectResult where
  outcomes : List (String × Outcome)
  statusEvents : List StatusEvent
deriving DecidableEq

/-- `disconnect()` from websocket.ts: detaches and closes the socket if one
exists, rejects every pending request with `"Socket disconnected"` (iterating
the map in insertion order), clears the map, and emits `disconnected`. -/
def disconnect (s : ClientState) : ClientState × DisconnectResult :=
  ({ wsOpen := false, requestCounter := s.requestCounter, pending := [] },
   { outcomes := s.pending.map (fun p => (p.requestId, Outcome.rejected "Socket disconnected")),
     statusEvents := [⟨.disconnected, none⟩] })

/-- The fixed per-candidate timeout of `tryOpen` (`setTimeout(fail, 1000)`). -/
def tryOpenTimeoutMs : Nat := 1000

/-- The port loop of `connect`: `tryOpen` each candidate in order, stop at the
first that accepts.  `accepts` abstracts whether a WebSocket to that port
opens within the `tryOpen` timeout; a failed probe leaves the client state
unchanged (the probe socket is closed and discarded). -/
def connectLoop (accepts : Nat → Bool) : List Nat → Option Nat
  | [] => none
  | p :: ps => if accepts p then some p else connectLoop accepts ps

/-- Result of `connect`: the state, all status emissions in order, the list of
ports actually probed (in order), and the returned port or thrown error. -/
structure ConnectResult where
  state : ClientState
  statusEvents : List StatusEvent
  probed : List Nat
  outcome : Except String Nat

/-- The ports `connect` probes: every candidate up to and including the first
accepted one (all of them if none accepts). -/
def probedPorts (accepts : Nat → Bool) : List Nat → List Nat
  | [] => []
  | p :: ps => if accepts p then [p] else p :: probedPorts accepts ps

/-- `connect(portCandidates)` from websocket.ts: first `this.disconnect()`,
then `connecting`; each candidate is tried in order with the `tryOpen`
timeout; the first accepted port opens the socket, emits `connected` and is
returned; if all candidates fail, `error` is emitted and the same message is
thrown. -/
def connect (s : ClientState) (accepts : Nat → Bool) (portCandidates : List Nat) :
    ConnectResult :=
  let s0 := (disconnect s).1
  let pre := (disconnect s).2.statusEvents ++ [⟨.connecting, none⟩]
  match connectLoop accepts portCandidates with
  | some port =>
      { state := { s0 with wsOpen := true },
        statusEvents := pre ++ [⟨.connected, none⟩],
        probed := probedPorts accepts portCandidates,
        outcome := .ok port }
  | none =>
      { state := s0,
        statusEvents := pre ++ [⟨.error, some "Unable to connect to Keyvox backend"⟩],
        probed := probedPorts accepts portCandidates,
        outcome := .error "Unable to connect to Keyvox backend" }

/-! ### App-side constants and port ordering (App.svelte) -/

def DEFAULT_PORT : Nat := 9876
def PORT_WINDOW : Nat := 10
def MAX_RECONNECT_ATTEMPTS : Nat := 5
def BASE_RECONNECT_DELAY_MS : Nat := 1200
def MAX_RECONNECT_DELAY_MS : Nat := 9000

/-- `Array.from({ length: PORT_WINDOW }, (_, index) => DEFAULT_PORT + index)` -/
def baseRange : List Nat :=
  (List.range PORT_WINDOW).map (fun index => DEFAULT_PORT + index)

/-- `orderedPorts(seed)` from App.svelte. -/
def orderedPorts (seed : Nat) : List Nat :=
  if baseRange.contains seed then
    seed :: baseRange.filter (fun port => port ≠ seed)
  else
    seed :: baseRange

/-! ### Session state reducer (App.svelte: consumeEvent / consumeResponse) -/

inductive NoticeLevel where
  | info | success | error
deriving DecidableEq

structure Notice where
  id : Nat
  level : NoticeLevel
  text : String
deriving DecidableEq

inductive JobUiState where
  | idle | loading | completed | error
deriving DecidableEq

inductive MigrationUiState where
  | idle | running | completed | error
deriving DecidableEq

/-- The fire-and-forget `void refresh...()` command batches issued by reducer
arms; they send further commands asynchronously and are modelled as outputs. -/
inductive RefreshCall where
  | capabilities
  | storageStatus
deriving DecidableEq

/-- The slice of App.svelte component state written by `consumeEvent` /
`consumeResponse` (the session model). -/
structure SessionModel where
  protocolVersion : String := ""
  engineState : EngineState := .idle
  lastTranscript : String := ""
  lastError : String := ""
  historyEntries : List HistoryEntry := []
  historyLimit : Nat := 100
  modelDownloadState : JobUiState := .idle
  modelDownloadMessage : String := ""
  modelDownloadProgressPct : Int := 0
  modelDownloadBytesTotal : Option Int := none
  modelDownloadBytesDone : Option Int := none
  modelDownloadBytesRemaining : Option Int := none
  storageMigrationState : MigrationUiState := .idle
  storageMigrationMessage : String := ""
  storageMigrationProgressPct : Int := 0
  storageRootInput : String := ""
  dictionaryEntries : List (String × String) := []
  boundPort : Option Nat := none
  connectionDetail : String := ""
  notices : List Notice := []
  noticeCounter : Nat := 0
deriving DecidableEq

def initialSessionModel : SessionModel := {}

/-- `notify(level, text)` from App.svelte (the 3.5 s auto-dismiss timer is a
UI concern and not modelled). -/
def notify (m : SessionModel) (level : NoticeLevel) (text : String) : SessionModel :=
  let id := m.noticeCounter + 1
  { m with
      noticeCounter := id,
      notices := m.notices ++ [{ id := id, level := level, text := text }] }

/-- JS object upsert `dictionaryEntries[key] = value`. -/
def dictUpsert (l : List (String × String)) (key value : String) : List (String × String) :=
  if l.any (fun kv => kv.1 = key) then
    l.map (fun kv => if kv.1 = key then (key, value) else kv)
  else
    l ++ [(key, value)]

/-- JS `delete dictionaryEntries[key]`. -/
def dictDelete (l : List (String × String)) (key : String) : List (String × String) :=
  l.filter (fun kv => kv.1 ≠ key)

/-- The shared body of the
`event.type === "model_download_progress" || event.type === "model_download"`
arm of `consumeEvent` (both event types enter the same `if` branch). -/
def applyModelDownload (m : SessionModel) (status : DownloadStatus)
    (backend name message : String) (progress_pct : Option Int)
    (bytes_total bytes_completed bytes_remaining : Option Int) :
    SessionModel × List RefreshCall :=
  let m := { m with
      modelDownloadMessage := backend ++ ":" ++ name ++ " - " ++ message }
  let m :=
    match progress_pct with
    | some p => { m with modelDownloadProgressPct := max 0 (min 100 p) }
    | none => m
  let m := { m with
      modelDownloadBytesTotal := bytes_total,
      modelDownloadBytesDone := bytes_completed,
      modelDownloadBytesRemaining := bytes_remaining }
  match status with
  | .starting | .resolving | .downloading | .finalizing =>
      ({ m with modelDownloadState := .loading }, [])
  | .completed =>
      (notify { m with modelDownloadState := .completed }
         .success m.modelDownloadMessage,
       [.capabilities])
  | .failed =>
      (notify { m with modelDownloadState := .error }
         .error m.modelDownloadMessage, [])

/-- `consumeEvent(event)` from App.svelte. -/
def consumeEvent (m : SessionModel) (event : ServerEvent) :
    SessionModel × List RefreshCall :=
  match event with
  | .state pv st =>
      ({ m with protocolVersion := pv, engineState := st }, [])
  | .transcription pv text _ entry =>
      let m := { m with protocolVersion := pv, lastTranscript := text }
      match entry with
      | some e =>
          ({ m with historyEntries := (e :: m.historyEntries).take m.historyLimit }, [])
      | none => (m, [])
  | .history_appended pv entry =>
      ({ m with
          protocolVersion := pv,
          historyEntries := (entry :: m.historyEntries).take m.historyLimit }, [])
  | .model_download pv status backend name message pct bt bc br =>
      applyModelDownload { m with protocolVersion := pv }
        status backend name message pct bt bc br
  | .model_download_progress pv status backend name message pct bt bc br =>
      applyModelDownload { m with protocolVersion := pv }
        status backend name message (some pct) bt bc br
  | .storage_migration pv status target_root message progress_pct _ _ =>
      let m := { m with
          protocolVersion := pv,
          storageMigrationMessage := message,
          storageMigrationProgressPct := progress_pct }
      match status with
      | .starting | .copying | .verifying | .cleanup =>
          ({ m with storageMigrationState := .running }, [])
      | .completed =>
          (notify { m with
                storageMigrationState := .completed,
                storageRootInput := target_root }
             .success "Storage migration completed",
           [.storageStatus, .capabilities])
      | .failed =>
          (notify { m with storageMigrationState := .error } .error message, [])
  | .storage_updated pv _ _ =>
      ({ m with protocolVersion := pv }, [.storageStatus])
  | .dictionary_updated pv key value =>
      ({ m with
          protocolVersion := pv,
          dictionaryEntries := dictUpsert m.dictionaryEntries key value }, [])
  | .dictionary_deleted pv key =>
      ({ m with
          protocolVersion := pv,
          dictionaryEntries := dictDelete m.dictionaryEntries key }, [])
  | .fatal pv message =>
      (notify { m with protocolVersion := pv, lastError := message } .error message, [])
  | .shutting_down pv =>
      (notify { m with protocolVersion := pv } .info "Backend is shutting down", [])

/-- `consumeResponse(response)` from App.svelte. -/
def consumeResponse (m : SessionModel) (r : ProtocolResponse) : SessionModel :=
  let m := { m with protocolVersion := r.protocol_version }
  if ¬ r.ok then
    notify m .error (serverErrorMessage r)
  else if r.response_type = "server_info" then
    match r.resultPort with
    | some port =>
        { m with
            boundPort := some port,
            connectionDetail := "ws://localhost:" ++ Nat.repr port }
    | none => m
  else m

/-- The `client.onMessage` handler installed by App.svelte: responses go to
`consumeResponse`, everything else to `consumeEvent`. -/
def onMessage (m : SessionModel) (message : IncomingMessage) :
    SessionModel × List RefreshCall :=
  match message with
  | .response r => (consumeResponse m r, [])
  | .event e => consumeEvent m e

/-! ### Reconnection supervisor (App.svelte: scheduleReconnect / attemptReconnect
and the `client.onStatus` handler) -/

inductive RuntimeIssue where
  | noIssue | backend_unavailable | transport_error
deriving DecidableEq

/-- The slice of App.svelte component state read and written by the reconnect
supervisor.  `reconnectTimer` holds the armed timer's delay in ms (the app
stores a timer handle; `none` models `null`).  Supervisor-side `notify` calls
are collected in `alerts` (the reducer-side notices live in `SessionModel`;
both share the component's notice list in the source, split here so each
machine stays self-contained). -/
structure SupervisorState where
  backendRunning : Bool
  reconnectTimer : Option Nat
  reconnectAttempts : Nat
  reconnectInFlight : Bool
  reconnectPaused : Bool
  connectionStatus : ConnectionStatus
  connectionDetail : String
  runtimeIssue : RuntimeIssue
  runtimeBlockingMessage : String
  alerts : List (NoticeLevel × String)
deriving DecidableEq

/-- `clearReconnectTimer()` -/
def clearReconnectTimer (s : SupervisorState) : SupervisorState :=
  { s with reconnectTimer := none }

/-- `resetReconnectState()` -/
def resetReconnectState (s : SupervisorState) : SupervisorState :=
  clearReconnectTimer
    { s with reconnectAttempts := 0, reconnectPaused := false, reconnectInFlight := false }

/-- `scheduleReconnect()` from App.svelte, transcribed guard for guard. -/
def scheduleReconnect (s : SupervisorState) : SupervisorState :=
  if s.reconnectTimer.isSome || s.reconnectInFlight || !s.backendRunning then
    s
  else if s.reconnectAttempts ≥ MAX_RECONNECT_ATTEMPTS then
    let s :=
      if ¬ s.reconnectPaused then
        { s with
            reconnectPaused := true,
            alerts := s.alerts ++
              [(.error, "Auto-reconnect paused after " ++ Nat.repr MAX_RECONNECT_ATTEMPTS
                  ++ " failed attempts.")] }
      else s
    { s with connectionDetail := "Auto-reconnect paused. Click Reconnect to retry." }
  else
    let delayMs := min (BASE_RECONNECT_DELAY_MS * 2 ^ s.reconnectAttempts)
                       MAX_RECONNECT_DELAY_MS
    { s with reconnectTimer := some delayMs }

/-- The `client.onStatus` handler installed by App.svelte. -/
def onStatus (s : SupervisorState) (status : ConnectionStatus) (detail : Option String) :
    SupervisorState :=
  let s := { s with connectionStatus := status, connectionDetail := detail.getD "" }
  let s :=
    if status = .connected then
      { resetReconnectState s with runtimeIssue := .noIssue, runtimeBlockingMessage := "" }
    else s
  let s := if status = .error then { s with runtimeIssue := .transport_error } else s
  if status = .disconnected && s.backendRunning then
    scheduleReconnect { s with runtimeIssue := .backend_unavailable }
  else if status = .disconnected && !s.backendRunning then
    { s with runtimeIssue := .noIssue }
  else s

/-- `attemptReconnect()` from App.svelte for the run in which
`connectToBackend` rejects (the backend is still down): the timer is cleared,
the guard is checked (`isConnected` abstracts `client.isConnected()`), the
in-flight flag is raised, `client.connect` fires its status callbacks
(`disconnected` from the initial internal `disconnect()`, then `connecting`,
then `error` when every port candidate fails) and throws, the `catch` block
runs — including its `scheduleReconnect()` call, made while
`reconnectInFlight` is still `true` — and `finally` lowers the flag. -/
def attemptReconnectFailure (s : SupervisorState) (isConnected : Bool)
    (errText : String) : SupervisorState :=
  let s := clearReconnectTimer s
  if !s.backendRunning || isConnected || s.reconnectInFlight then
    s
  else
    let s := { s with reconnectInFlight := true }
    let s := onStatus s .disconnected none
    let s := onStatus s .connecting none
    let s := onStatus s .error (some "Unable to connect to Keyvox backend")
    let s := { s with
        reconnectAttempts := s.reconnectAttempts + 1,
        runtimeIssue := .backend_unavailable,
        connectionStatus := .error }
    let s := { s with
        connectionDetail := "Reconnect " ++ Nat.repr s.reconnectAttempts ++ "/"
          ++ Nat.repr MAX_RECONNECT_ATTEMPTS ++ " failed: " ++ errText }
    let s := scheduleReconnect s
    { s with reconnectInFlight := false }

/-- A healthy connected session from the supervisor's point of view, as left
by a successful `connected` transition. -/
def connectedSupervisorState : SupervisorState :=
  { backendRunning := true
    reconnectTimer := none
    reconnectAttempts := 0
    reconnectInFlight := false
    reconnectPaused := false
    connectionStatus := .connected
    connectionDetail := ""
    runtimeIssue := .noIssue
    runtimeBlockingMessage := ""
    alerts := [] }

/-! ### Client operation traces (for lifetime properties of the client object) -/

/-- One externally triggered transition of a `KeyvoxWsClient`. -/
inductive ClientOp where
  | send (type : String)
  | timerFires (requestId : String)
  | message (raw : RawFrame)
  | close
  | reconnect (accepts : Nat → Bool) (ports : List Nat)

/-- The state transition of one operation, together with the command frames it
puts on the wire. -/
def step (s : ClientState) : ClientOp → ClientState × List CommandFrame
  | .send ty =>
      match sendCommand s ty with
      | .ok (s', frame) => (s', [frame])
      | .error _ => (s, [])
  | .timerFires rid => ((fireTimeout s rid).1, [])
  | .message raw => ((handleMessage s raw).1, [])
  | .close => ((disconnect s).1, [])
  | .reconnect accepts ports => ((connect s accepts ports).state, [])

/-- Run a sequence of operations, collecting every frame sent. -/
def runOps (s : ClientState) : List ClientOp → ClientState × List CommandFrame
  | [] => (s, [])
  | op :: ops =>
      let r1 := step s op
      let r2 := runOps r1.1 ops
      (r2.1, r1.2 ++ r2.2)

/-! ### Shared helper lemmas -/

/-- Decimal value of a digit character produced by `Nat.digitChar`. -/
def digitVal (c : Char) : Nat := c.toNat - 48

/-- Decimal value of a most-significant-first digit string. -/
def digitsVal (cs : List Char) : Nat :=
  cs.foldl (fun a c => a * 10 + digitVal c) 0

theorem digitsVal_foldl_acc (cs : List Char) :
    ∀ a : Nat, cs.foldl (fun a c => a * 10 + digitVal c) a
      = a * 10 ^ cs.length + cs.foldl (fun a c => a * 10 + digitVal c) 0 := by
  induction cs with
  | nil => intro a; simp
  | cons c cs ih =>
      intro a
      simp only [List.foldl_cons, List.length_cons]
      rw [ih (a * 10 + digitVal c), ih (0 * 10 + digitVal c)]
      ring

theorem digitVal_digitChar : ∀ d : Nat, d < 10 → digitVal (Nat.digitChar d) = d := by decide

theorem digitsVal_toDigitsCore :
    ∀ (fuel n : Nat) (ds : List Char), n < 10 ^ fuel →
      digitsVal (Nat.toDigitsCore 10 fuel n ds)
        = n * 10 ^ ds.length + digitsVal ds := by
  intro fuel
  induction fuel with
  | zero =>
      intro n ds h
      have hn : n = 0 := Nat.lt_one_iff.mp (by simpa using h)
      subst hn
      simp [Nat.toDigitsCore]
  | succ fuel ih =>
      intro n ds h
      rw [Nat.toDigitsCore]
      by_cases h10 : n / 10 = 0
      · have hn : n < 10 := (Nat.div_eq_zero_iff (by norm_num)).mp h10
        simp only [h10, if_true]
        show digitsVal (Nat.digitChar (n % 10) :: ds) = n * 10 ^ ds.length + digitsVal ds
        simp only [digitsVal, List.foldl_cons]
        rw [digitsVal_foldl_acc ds (0 * 10 + digitVal (Nat.digitChar (n % 10)))]
        rw [digitVal_digitChar (n % 10) (Nat.mod_lt _ (by norm_num))]
        rw [Nat.mod_eq_of_lt hn]
        ring
      · simp only [h10, if_false]
        have hlt : n / 10 < 10 ^ fuel := by
          rw [Nat.div_lt_iff_lt_mul (by norm_num : 0 < 10)]
          calc n < 10 ^ (fuel + 1) := h
            _ = 10 ^ fuel * 10 := by ring
        rw [ih (n / 10) (Nat.digitChar (n % 10) :: ds) hlt]
        simp only [digitsVal, List.foldl_cons, List.length_cons]
        rw [digitsVal_foldl_acc ds (0 * 10 + digitVal (Nat.digitChar (n % 10)))]
        rw [digitVal_digitChar (n % 10) (Nat.mod_lt _ (by norm_num))]
        have hn10 : n / 10 * 10 + n % 10 = n := by omega
        have key : n / 10 * 10 ^ (ds.length + 1) + (0 * 10 + n % 10) * 10 ^ ds.length
            = n * 10 ^ ds.length := by
          calc n / 10 * 10 ^ (ds.length + 1) + (0 * 10 + n % 10) * 10 ^ ds.length
              = (n / 10 * 10 + n % 10) * 10 ^ ds.length := by ring
            _ = n * 10 ^ ds.length := by rw [hn10]
        linarith [key]

theorem digitsVal_toDigits (n : Nat) : digitsVal (Nat.toDigits 10 n) = n := by
  have hlt : n < 10 ^ (n + 1) :=
    lt_of_lt_of_le (Nat.lt_pow_self (by norm_num) n)
      (Nat.pow_le_pow_right (by norm_num) (Nat.le_succ n))
  show digitsVal (Nat.toDigitsCore 10 (n + 1) n []) = n
  rw [digitsVal_toDigitsCore (n + 1) n [] hlt]
  simp [digitsVal]

theorem natRepr_injective {m n : Nat} (h : Nat.repr m = Nat.repr n) : m = n := by
  have hdata := congrArg String.data h
  have hdig : Nat.toDigits 10 m = Nat.toDigits 10 n := by
    simpa [Nat.repr, List.asString] using hdata
  have := congrArg digitsVal hdig
  simpa [digitsVal_toDigits] using this

theorem mkRequestId_injective {m n : Nat} (h : mkRequestId m = mkRequestId n) : m = n := by
  apply natRepr_injective
  apply String.ext
  have hdata := congrArg String.data h
  simp only [mkRequestId, String.data_append] at hdata
  exact List.append_cancel_left hdata

theorem pendingGet_delete_self (l : List PendingEntry) (k : String) :
    pendingGet (pendingDelete l k) k = none := by
  rw [pendingGet, List.find?_eq_none]
  intro p hp
  have := (List.mem_filter.mp hp).2
  simpa using this

theorem pendingGet_cons (p : PendingEntry) (l : List PendingEntry) (k : String) :
    pendingGet (p :: l) k = if p.requestId = k then some p else pendingGet l k := by
  by_cases hp : p.requestId = k <;> simp [pendingGet, List.find?_cons, hp]

theorem pendingDelete_cons (p : PendingEntry) (l : List PendingEntry) (k : String) :
    pendingDelete (p :: l) k
      = if p.requestId = k then pendingDelete l k else p :: pendingDelete l k := by
  by_cases hp : p.requestId = k <;> simp [pendingDelete, List.filter_cons, hp]

theorem pendingGet_delete_ne (l : List PendingEntry) (k k' : String) (h : k' ≠ k) :
    pendingGet (pendingDelete l k) k' = pendingGet l k' := by
  induction l with
  | nil => rfl
  | cons p l ih =>
      rw [pendingDelete_cons, pendingGet_cons]
      by_cases hp : p.requestId = k
      · rw [if_pos hp, ih, if_neg (fun hc => h (by rw [← hc]; exact hp))]
      · rw [if_neg hp, pendingGet_cons, ih]

/-- The clamped value `Math.max(0, Math.min(100, p))` lies in `[0, 100]`. -/
theorem clamp_mem (p : Int) : 0 ≤ max 0 (min 100 p) ∧ max 0 (min 100 p) ≤ 100 :=
  ⟨le_max_left _ _, max_le (by norm_num) (min_le_left _ _)⟩

/-- Claim C8: an inbound raw frame that fails JSON decoding makes the client
emit the transport-level error status "Received invalid JSON message" and drop
the frame: no pending request is resolved or rejected, nothing is forwarded to
the message consumer, the socket stays as it was (not closed), and the client
state is unchanged. -/
theorem keyvox_malformed_frame_dropped (s : ClientState) :
    (handleMessage s .malformed).1 = s
    ∧ (handleMessage s .malformed).2.statusEvents
        = [⟨.error, some "Received invalid JSON message"⟩]
    ∧ (handleMessage s .malformed).2.outcomes = []
    ∧ (handleMessage s .malformed).2.forwarded = []
    ∧ (handleMessage s .malformed).1.wsOpen = s.wsOpen
    ∧ (handleMessage s .malformed).1.pending = s.pending :=
  ⟨rfl, rfl, rfl, rfl, rfl, rfl⟩

/-- Claim C8 witness: the malformed-frame behaviour at a concrete state. -/
theorem keyvox_malformed_frame_dropped_witness :
    (handleMessage initialClientState .malformed).1 = initialClientState :=
  (keyvox_malformed_frame_dropped initialClientState).1

/-- Claim C7: every successfully decoded inbound frame is forwarded to the
consumer, and the app-side dispatcher applies the reducer's event rules
(`consumeEvent`) only to event-shaped frames; a frame with type "response" is
routed to `consumeResponse` and never through `consumeEvent`. -/
theorem keyvox_responses_not_reinterpreted (s : ClientState) (m : IncomingMessage)
    (model : SessionModel) :
    (handleMessage s (.frame m)).2.forwarded = [m]
    ∧ (∀ r, m = .response r → onMessage model m = (consumeResponse model r, []))
    ∧ (∀ e, m = .event e → onMessage model m = consumeEvent model e)
    ∧ (isProtocolResponse m = true ↔ ∃ r, m = .response r) := by
  refine ⟨rfl, ?_, ?_, ?_⟩
  · rintro r rfl; rfl
  · rintro e rfl; rfl
  · cases m with
    | response r => simp [isProtocolResponse]
    | event e => simp [isProtocolResponse]

/-- Claim C7 witness: routing of a concrete response frame. -/
theorem keyvox_responses_not_reinterpreted_witness :
    onMessage initialSessionModel
        (.response { protocol_version := "1.0.0", timestamp := "t",
                     request_id := some (.str "req-1"), response_type := "pong", ok := true })
      = (consumeResponse initialSessionModel
          { protocol_version := "1.0.0", timestamp := "t",
            request_id := some (.str "req-1"), response_type := "pong", ok := true }, []) :=
  (keyvox_responses_not_reinterpreted initialClientState
      (.response { protocol_version := "1.0.0", timestamp := "t",
                   request_id := some (.str "req-1"), response_type := "pong", ok := true })
      initialSessionModel).2.1 _ rfl

/-- Claim C6 counterexample: a storage-migration progress event carrying 105
is stored as 105 — outside `[0, 100]` — so the claim that both job kinds store
a clamped percentage is false on the code. -/
theorem keyvox_migration_progress_unclamped :
    (consumeEvent initialSessionModel
        (.storage_migration "1.0.0" .copying "/new/root" "copying files" 105 none none)
      ).1.storageMigrationProgressPct = 105
    ∧ ¬ ((consumeEvent initialSessionModel
        (.storage_migration "1.0.0" .copying "/new/root" "copying files" 105 none none)
      ).1.storageMigrationProgressPct ≤ 100) := by
  constructor
  · rfl
  · decide

/-- Claim C6 (amended): model-download progress events with a numeric
`progress_pct` store a value clamped into `[0, 100]` (even for 105), while
storage-migration progress events store the server value unchanged, outside
`[0, 100]` when the server sends such a value. -/
theorem keyvox_progress_clamping_amended (m : SessionModel) (pv : String)
    (st : DownloadStatus) (b n msg : String) (p : Int) (bt bc br : Option Int)
    (stp : DownloadStatus) (b2 n2 msg2 : String) (p2 : Int) (bt2 bc2 br2 : Option Int)
    (ms : MigrationStatus) (tr mmsg : String) (mp : Int) (tb cb : Option Int) :
    (0 ≤ (consumeEvent m (.model_download pv st b n msg (some p) bt bc br)
            ).1.modelDownloadProgressPct
      ∧ (consumeEvent m (.model_download pv st b n msg (some p) bt bc br)
            ).1.modelDownloadProgressPct ≤ 100)
    ∧ (0 ≤ (consumeEvent m (.model_download_progress pv stp b2 n2 msg2 p2 bt2 bc2 br2)
            ).1.modelDownloadProgressPct
      ∧ (consumeEvent m (.model_download_progress pv stp b2 n2 msg2 p2 bt2 bc2 br2)
            ).1.modelDownloadProgressPct ≤ 100)
    ∧ (consumeEvent m (.storage_migration pv ms tr mmsg mp tb cb)
          ).1.storageMigrationProgressPct = mp := by
  refine ⟨?_, ?_, ?_⟩
  · cases st <;> simp [consumeEvent, applyModelDownload, notify]
  · cases stp <;> simp [consumeEvent, applyModelDownload, notify]
  · cases ms <;> simp [consumeEvent, notify]

/-- Claim C9: a transcription event always overwrites the last transcript,
prepends the persisted entry to the history cache only when the entry payload
is present (truncating to the configured limit, so the cache keeps the most
recent entries and never exceeds the bound), and no reducer arm ever changes
the limit, which starts at 100. -/
theorem keyvox_transcription_reducer (m : SessionModel) (pv text : String)
    (dur : Option Int) (entry : Option HistoryEntry) :
    (consumeEvent m (.transcription pv text dur entry)).1.lastTranscript = text
    ∧ (∀ e, entry = some e →
        (consumeEvent m (.transcription pv text dur entry)).1.historyEntries
          = (e :: m.historyEntries).take m.historyLimit)
    ∧ (entry = none →
        (consumeEvent m (.transcription pv text dur entry)).1.historyEntries
          = m.historyEntries)
    ∧ (∀ e, entry = some e →
        (consumeEvent m (.transcription pv text dur entry)).1.historyEntries.length
          ≤ m.historyLimit)
    ∧ (m.historyEntries.length ≤ m.historyLimit →
        (consumeEvent m (.transcription pv text dur entry)).1.historyEntries.length
          ≤ m.historyLimit)
    ∧ initialSessionModel.historyLimit = 100
    ∧ (∀ ev : ServerEvent, (consumeEvent m ev).1.historyLimit = m.historyLimit) := by
  refine ⟨?_, ?_, ?_, ?_, ?_, rfl, ?_⟩
  · cases entry <;> rfl
  · rintro e rfl; rfl
  · rintro rfl; rfl
  · rintro e rfl
    simp [consumeEvent, List.length_take]
  · intro hlen
    cases entry with
    | none => exact hlen
    | some e => simp [consumeEvent, List.length_take]
  · intro ev
    cases ev with
    | model_download pv st b n msg p bt bc br =>
        cases p <;> cases st <;> simp [consumeEvent, applyModelDownload, notify]
    | model_download_progress pv st b n msg p bt bc br =>
        cases st <;> simp [consumeEvent, applyModelDownload, notify]
    | storage_migration pv st tr msg p tb cb =>
        cases st <;> simp [consumeEvent, notify]
    | transcription pv text dur entry =>
        cases entry <;> simp [consumeEvent]
    | _ => simp [consumeEvent, notify]

/-- Claim C9 witness: the transcription arm at a concrete model and event. -/
theorem keyvox_transcription_reducer_witness :
    (consumeEvent initialSessionModel
        (.transcription "1.0.0" "hello" none none)).1.lastTranscript = "hello" :=
  (keyvox_transcription_reducer initialSessionModel "1.0.0" "hello" none none).1

/-- Claim C4 (code bug): the backoff formula `min(1200 * 2^n, 9000)` does give
the delays 1200, 2400, 4800, 9000, 9000, and a transport drop while
`backendRunning` arms a 1200 ms timer; but after the first failed reconnect
attempt the catch-block call to `scheduleReconnect` runs while
`reconnectInFlight` is still true, so no second timer is armed: the supervisor
is left with attempts = 1, no timer and `paused = false`, and only a direct
`scheduleReconnect` at attempts ≥ 5 (unreachable through consecutive automatic
attempts) would pause it. -/
theorem keyvox_reconnect_backoff_stalls :
    ((List.range MAX_RECONNECT_ATTEMPTS).map
        (fun n => min (BASE_RECONNECT_DELAY_MS * 2 ^ n) MAX_RECONNECT_DELAY_MS)
      = [1200, 2400, 4800, 9000, 9000])
    ∧ (onStatus connectedSupervisorState .disconnected none).reconnectTimer = some 1200
    ∧ (attemptReconnectFailure (onStatus connectedSupervisorState .disconnected none) false
        "Error: Unable to connect to Keyvox backend").reconnectAttempts = 1
    ∧ (attemptReconnectFailure (onStatus connectedSupervisorState .disconnected none) false
        "Error: Unable to connect to Keyvox backend").reconnectTimer = none
    ∧ (attemptReconnectFailure (onStatus connectedSupervisorState .disconnected none) false
        "Error: Unable to connect to Keyvox backend").reconnectPaused = false
    ∧ (attemptReconnectFailure (onStatus connectedSupervisorState .disconnected none) false
        "Error: Unable to connect to Keyvox backend").reconnectInFlight = false
    ∧ (scheduleReconnect { connectedSupervisorState with reconnectAttempts := 5 }
        ).reconnectPaused = true
    ∧ (scheduleReconnect { connectedSupervisorState with reconnectAttempts := 5 }
        ).reconnectTimer = none := by
  refine ⟨by decide, by decide, by decide, by decide, by decide, by decide, by decide, by decide⟩

/-- Claim C1: an outcome delivered by `handleMessage` to a pending request's
future always comes from a response frame whose (truthy, stringified)
`request_id` equals that request's correlation id — never a different id;
the request must have been pending and is removed from the map; the future
resolves with the frame exactly when `ok` is true and rejects with the
server-supplied error message when `ok` is false; event frames settle
nothing. -/
theorem keyvox_response_correlation (s : ClientState) (r : ProtocolResponse)
    (rid : String) (out : Outcome)
    (hmem : (rid, out) ∈ (handleMessage s (.frame (.response r))).2.outcomes) :
    requestKeyOf r = some rid
    ∧ (pendingGet s.pending rid).isSome = true
    ∧ (out = .resolved r ↔ r.ok = true)
    ∧ (r.ok = false → out = .rejected (serverErrorMessage r))
    ∧ pendingGet (handleMessage s (.frame (.response r))).1.pending rid = none
    ∧ (∀ e : ServerEvent, (handleMessage s (.frame (.event e))).2.outcomes = []) := by
  rcases hk : requestKeyOf r with _ | key
  · simp [handleMessage, hk] at hmem
  · rcases hp : pendingGet s.pending key with _ | p
    · simp [handleMessage, hk, hp] at hmem
    · simp only [handleMessage, hk, hp, List.mem_singleton, Prod.mk.injEq] at hmem
      obtain ⟨hrid, hout⟩ := hmem
      have hpid : p.requestId = key := by
        have := List.find?_some hp
        simpa using this
      have hridkey : rid = key := by rw [hrid, hpid]
      have hstate : (handleMessage s (.frame (.response r))).1
          = { s with pending := pendingDelete s.pending key } := by
        simp [handleMessage, hk, hp]
      refine ⟨?_, ?_, ?_, ?_, ?_, fun e => rfl⟩
      · rw [hridkey]
      · rw [hridkey, hp]; rfl
      · by_cases hok : r.ok
        · simp only [hok, if_true] at hout
          subst hout
          simp [hok]
        · simp only [hok, if_false] at hout
          subst hout
          simp [hok]
      · intro hfalse
        simp only [hfalse, Bool.false_eq_true, if_false] at hout
        exact hout
      · rw [hstate, hridkey]
        exact pendingGet_delete_self s.pending key


/-- A connected client with one pending request `req-1` for command `ping`. -/
def c1State : ClientState :=
  { wsOpen := true, requestCounter := 1, pending := [⟨"req-1", "ping"⟩] }

/-- A successful response frame correlated to `req-1`. -/
def c1Response : ProtocolResponse :=
  { protocol_version := "1.0.0", timestamp := "t",
    request_id := some (.str "req-1"), response_type := "pong", ok := true }

/-- Claim C1 witness: the correlation theorem applied to a concrete pending
request and its matching successful response. -/
theorem keyvox_response_correlation_witness :
    requestKeyOf c1Response = some "req-1" :=
  (keyvox_response_correlation c1State c1Response "req-1" (.resolved c1Response)
      (by decide)).1

/-- Claim C2: when the per-request timer fires, the future rejects with
"Request timed out: <type>" for that request's command type, the correlation
id is removed from the pending map while every other key is untouched, and a
response arriving afterwards for the removed id settles no request and leaves
the pending map unchanged. -/
theorem keyvox_timeout_semantics (s : ClientState) (rid ty : String)
    (h : pendingGet s.pending rid = some ⟨rid, ty⟩) :
    (fireTimeout s rid).2 = [(rid, .rejected ("Request timed out: " ++ ty))]
    ∧ pendingGet (fireTimeout s rid).1.pending rid = none
    ∧ (∀ k, k ≠ rid → pendingGet (fireTimeout s rid).1.pending k = pendingGet s.pending k)
    ∧ (∀ r : ProtocolResponse, requestKeyOf r = some rid →
        (handleMessage (fireTimeout s rid).1 (.frame (.response r))).2.outcomes = []
        ∧ (handleMessage (fireTimeout s rid).1 (.frame (.response r))).1.pending
            = (fireTimeout s rid).1.pending) := by
  have hfire : fireTimeout s rid
      = ({ s with pending := pendingDelete s.pending rid },
         [(rid, .rejected ("Request timed out: " ++ ty))]) := by
    simp [fireTimeout, h]
  refine ⟨by rw [hfire], ?_, ?_, ?_⟩
  · rw [hfire]
    exact pendingGet_delete_self s.pending rid
  · intro k hk
    rw [hfire]
    exact pendingGet_delete_ne s.pending rid k hk
  · intro r hr
    have hnone : pendingGet (fireTimeout s rid).1.pending rid = none := by
      rw [hfire]
      exact pendingGet_delete_self s.pending rid
    exact ⟨by simp [handleMessage, hr, hnone], by simp [handleMessage, hr, hnone]⟩

/-- A connected client with two pending requests. -/
def c2State : ClientState :=
  { wsOpen := true, requestCounter := 2,
    pending := [⟨"req-1", "ping"⟩, ⟨"req-2", "server_info"⟩] }

/-- Claim C2 witness: the timeout theorem applied to the pending `ping`
request of a concrete client state. -/
theorem keyvox_timeout_semantics_witness :
    (fireTimeout c2State "req-1").2
      = [("req-1", .rejected ("Request timed out: " ++ "ping"))] :=
  (keyvox_timeout_semantics c2State "req-1" "ping" (by decide)).1

/-- With unique correlation ids, the rejection list produced by iterating the
pending map holds exactly one entry per pending correlation id. -/
theorem countP_pair_key (l : List PendingEntry) (rid : String) (c : Outcome)
    (hnodup : (l.map (fun p => p.requestId)).Nodup)
    (hmem : ∃ p ∈ l, p.requestId = rid) :
    (l.map (fun p => (p.requestId, c))).countP (fun q => q.1 = rid) = 1 := by
  induction l with
  | nil => simp at hmem
  | cons p l ih =>
      simp only [List.map_cons, List.nodup_cons] at hnodup
      rw [List.map_cons, List.countP_cons]
      by_cases hp : p.requestId = rid
      · have htail : (l.map (fun p => (p.requestId, c))).countP (fun q => q.1 = rid) = 0 := by
          rw [List.countP_eq_zero]
          intro q hq
          obtain ⟨x, hx, hxq⟩ := List.mem_map.mp hq
          have : q.1 = x.requestId := by rw [← hxq]
          rw [this]
          simp only [decide_eq_true_eq]
          intro hxr
          exact hnodup.1 (by rw [← hp] at hxr; exact hxr ▸ List.mem_map_of_mem _ hx)
        simp [htail, hp]
      · have hhead : ¬ ((p.requestId, c).1 = rid) := hp
        obtain ⟨x, hx, hxr⟩ := hmem
        rcases List.mem_cons.mp hx with hxp | hxl
        · exact absurd (hxp ▸ hxr) hp
        · have := ih hnodup.2 ⟨x, hxl, hxr⟩
          simp [this, hp]

/-- Claim C3: `disconnect()` rejects every currently pending request exactly
once with a "Socket disconnected" error and nothing else, clears the pending
map, closes the transport, and emits `disconnected`; a second `disconnect()`
rejects nothing, changes nothing, and again ends at `disconnected`. -/
theorem keyvox_disconnect_semantics (s : ClientState)
    (hnodup : (s.pending.map (fun p => p.requestId)).Nodup) :
    (∀ p ∈ s.pending,
      (disconnect s).2.outcomes.countP (fun q => q.1 = p.requestId) = 1)
    ∧ (∀ rid o, (rid, o) ∈ (disconnect s).2.outcomes →
        o = Outcome.rejected "Socket disconnected" ∧ ∃ p ∈ s.pending, p.requestId = rid)
    ∧ (disconnect s).1.pending = []
    ∧ (disconnect s).1.wsOpen = false
    ∧ (disconnect s).2.statusEvents = [⟨.disconnected, none⟩]
    ∧ (disconnect (disconnect s).1).2.outcomes = []
    ∧ (disconnect (disconnect s).1).1 = (disconnect s).1
    ∧ (disconnect (disconnect s).1).2.statusEvents = [⟨.disconnected, none⟩] := by
  refine ⟨?_, ?_, rfl, rfl, rfl, rfl, rfl, rfl⟩
  · intro p hp
    exact countP_pair_key s.pending p.requestId _ hnodup ⟨p, hp, rfl⟩
  · intro rid o hmem
    obtain ⟨p, hp, hpair⟩ := List.mem_map.mp hmem
    have h1 : p.requestId = rid := congrArg Prod.fst hpair
    have h2 : Outcome.rejected "Socket disconnected" = o := congrArg Prod.snd hpair
    exact ⟨h2.symm, ⟨p, hp, h1⟩⟩

/-- Claim C3 witness: the disconnect theorem applied to a client with two
distinct pending requests. -/
theorem keyvox_disconnect_semantics_witness :
    (disconnect c2State).2.outcomes.countP (fun q => q.1 = "req-1") = 1 :=
  (keyvox_disconnect_semantics c2State (by decide)).1 ⟨"req-1", "ping"⟩ (by decide)

/-- The port loop of `connect` returns the first candidate that accepts. -/
theorem connectLoop_eq_find (accepts : Nat → Bool) :
    ∀ l : List Nat, connectLoop accepts l = l.find? accepts := by
  intro l
  induction l with
  | nil => rfl
  | cons p ps ih =>
      by_cases hp : accepts p <;> simp [connectLoop, List.find?_cons, hp, ih]

/-- The ports probed are the refusing prefix followed by the first acceptor
(if any): probing is in order and short-circuits on the first success. -/
theorem probedPorts_eq (accepts : Nat → Bool) :
    ∀ l : List Nat, probedPorts accepts l
      = l.takeWhile (fun p => !accepts p) ++ (l.find? accepts).toList := by
  intro l
  induction l with
  | nil => rfl
  | cons p ps ih =>
      by_cases hp : accepts p
      · simp [probedPorts, List.takeWhile_cons, List.find?_cons, hp]
      · simp [probedPorts, List.takeWhile_cons, List.find?_cons, hp, ih]

theorem baseRange_nodup : baseRange.Nodup := by decide

theorem orderedPorts_nodup (seed : Nat) : (orderedPorts seed).Nodup := by
  unfold orderedPorts
  by_cases hs : baseRange.contains seed = true
  · rw [if_pos hs]
    refine List.nodup_cons.mpr ⟨?_, baseRange_nodup.filter _⟩
    intro hmem
    have := (List.mem_filter.mp hmem).2
    simp at this
  · rw [if_neg hs]
    refine List.nodup_cons.mpr ⟨?_, baseRange_nodup⟩
    intro hmem
    exact hs (List.contains_iff_exists_mem_beq.mpr ⟨seed, hmem, by simp⟩)

theorem orderedPorts_mem (seed p : Nat) :
    p ∈ orderedPorts seed ↔ (p = seed ∨ p ∈ baseRange) := by
  unfold orderedPorts
  by_cases hs : baseRange.contains seed = true
  · rw [if_pos hs]
    by_cases hp : p = seed
    · subst hp
      simp
    · simp [List.mem_filter, hp]
  · rw [if_neg hs]
    simp

/-- Claim C5: for every seed port the candidate list is the seed first, then
the fixed window 9876..9885 with the seed deduplicated and no duplicates at
all; candidates are tried in order with the fixed ~1 s `tryOpen` timeout,
stopping at the first acceptor; `connect` returns the first accepting port and
ends its status emissions with `connected`; if every candidate fails it ends
with an error status and throws "Unable to connect to Keyvox backend". -/
theorem keyvox_connect_port_probing (seed : Nat) (accepts : Nat → Bool) (s : ClientState) :
    (orderedPorts seed).Nodup
    ∧ (orderedPorts seed).head? = some seed
    ∧ (∀ p, p ∈ orderedPorts seed ↔ (p = seed ∨ p ∈ baseRange))
    ∧ baseRange = [9876, 9877, 9878, 9879, 9880, 9881, 9882, 9883, 9884, 9885]
    ∧ tryOpenTimeoutMs = 1000
    ∧ (connect s accepts (orderedPorts seed)).probed
        = (orderedPorts seed).takeWhile (fun p => !accepts p)
          ++ ((orderedPorts seed).find? accepts).toList
    ∧ (∀ p, (orderedPorts seed).find? accepts = some p →
        (connect s accepts (orderedPorts seed)).outcome = .ok p
        ∧ (connect s accepts (orderedPorts seed)).state.wsOpen = true
        ∧ (connect s accepts (orderedPorts seed)).statusEvents.getLast?
            = some ⟨.connected, none⟩)
    ∧ ((orderedPorts seed).find? accepts = none →
        (connect s accepts (orderedPorts seed)).outcome
            = .error "Unable to connect to Keyvox backend"
        ∧ (connect s accepts (orderedPorts seed)).statusEvents.getLast?
            = some ⟨.error, some "Unable to connect to Keyvox backend"⟩) := by
  have hhead : (orderedPorts seed).head? = some seed := by
    unfold orderedPorts
    split <;> rfl
  have hprobed : (connect s accepts (orderedPorts seed)).probed
      = probedPorts accepts (orderedPorts seed) := by
    unfold connect
    split <;> rfl
  refine ⟨orderedPorts_nodup seed, hhead, orderedPorts_mem seed, by decide, rfl, ?_, ?_, ?_⟩
  · rw [hprobed, probedPorts_eq]
  · intro p hp
    have hloop : connectLoop accepts (orderedPorts seed) = some p := by
      rw [connectLoop_eq_find, hp]
    refine ⟨?_, ?_, ?_⟩ <;> simp [connect, hloop, List.getLast?_concat]
  · intro hnone
    have hloop : connectLoop accepts (orderedPorts seed) = none := by
      rw [connectLoop_eq_find, hnone]
    exact ⟨by simp [connect, hloop], by simp [connect, hloop, List.getLast?_concat]⟩

/-- Claim C5 witness: with seed 9876, where 9876 refuses and 9877 accepts,
`connect` resolves with 9877. -/
theorem keyvox_connect_port_probing_witness :
    (connect initialClientState (fun p => p == 9877) (orderedPorts 9876)).outcome
      = .ok 9877 :=
  ((keyvox_connect_port_probing 9876 (fun p => p == 9877)
      initialClientState).2.2.2.2.2.2.1 9877 (by decide)).1

/-- Per-operation facts: the request counter never decreases, any frame sent
carries the id freshly minted from the post-step counter, and one step sends
at most one frame. -/
theorem step_spec (s : ClientState) (op : ClientOp) :
    s.requestCounter ≤ (step s op).1.requestCounter
    ∧ (∀ f ∈ (step s op).2,
        f.request_id = mkRequestId ((step s op).1.requestCounter)
        ∧ s.requestCounter < (step s op).1.requestCounter)
    ∧ (step s op).2.Pairwise (fun f g => f.request_id ≠ g.request_id) := by
  cases op with
  | send ty =>
      by_cases h : s.wsOpen = true
      · simp [step, sendCommand, h]
      · simp [step, sendCommand, h]
  | timerFires rid =>
      rcases hg : pendingGet s.pending rid with _ | e <;> simp [step, fireTimeout, hg]
  | message raw =>
      match raw with
      | .malformed => simp [step, handleMessage]
      | .frame m =>
          cases m with
          | response r =>
              rcases hk : requestKeyOf r with _ | key
              · simp [step, handleMessage, hk]
              · rcases hp : pendingGet s.pending key with _ | p <;>
                  simp [step, handleMessage, hk, hp]
          | event e => simp [step, handleMessage]
  | close => simp [step, disconnect]
  | reconnect accepts ports =>
      rcases hl : connectLoop accepts ports with _ | p <;>
        simp [step, connect, disconnect, hl]

/-- Trace-level facts: over any operation sequence the counter is monotone,
every sent frame's id was minted at some counter value strictly above the
starting counter, and all sent frames carry pairwise distinct ids. -/
theorem runOps_spec (ops : List ClientOp) : ∀ s : ClientState,
    s.requestCounter ≤ (runOps s ops).1.requestCounter
    ∧ (∀ f ∈ (runOps s ops).2, ∃ c, s.requestCounter < c
        ∧ c ≤ (runOps s ops).1.requestCounter ∧ f.request_id = mkRequestId c)
    ∧ (runOps s ops).2.Pairwise (fun f g => f.request_id ≠ g.request_id) := by
  induction ops with
  | nil =>
      intro s
      exact ⟨le_refl _, by simp [runOps], by simp [runOps]⟩
  | cons op ops ih =>
      intro s
      obtain ⟨hle1, hf1, hpw1⟩ := step_spec s op
      obtain ⟨hle2, hf2, hpw2⟩ := ih (step s op).1
      have hrun : runOps s (op :: ops)
          = ((runOps (step s op).1 ops).1,
             (step s op).2 ++ (runOps (step s op).1 ops).2) := rfl
      refine ⟨le_trans hle1 hle2, ?_, ?_⟩
      · intro f hf
        rw [hrun] at hf
        rcases List.mem_append.mp hf with h1 | h2
        · obtain ⟨hid, hlt⟩ := hf1 f h1
          exact ⟨(step s op).1.requestCounter, hlt, hle2, hid⟩
        · obtain ⟨c, hc1, hc2, hc3⟩ := hf2 f h2
          exact ⟨c, lt_of_le_of_lt hle1 hc1, hc2, hc3⟩
      · rw [hrun]
        refine List.pairwise_append.mpr ⟨hpw1, hpw2, ?_⟩
        intro a ha b hb
        obtain ⟨hida, _⟩ := hf1 a ha
        obtain ⟨c, hc1, _, hc3⟩ := hf2 b hb
        rw [hida, hc3]
        intro heq
        have hcc := mkRequestId_injective heq
        omega

/-- Claim C10: correlation ids come from the strictly increasing
`requestCounter`, which no operation — `disconnect()` and `connect` included —
ever resets, so over any operation sequence on one client object the sent
frames carry pairwise distinct correlation ids (uniqueness for the object's
lifetime, across transport sessions). -/
theorem keyvox_request_ids_never_reused :
    (∀ ops : List ClientOp,
      (runOps initialClientState ops).2.Pairwise
        (fun f g => f.request_id ≠ g.request_id))
    ∧ (∀ (s : ClientState) (op : ClientOp),
        s.requestCounter ≤ (step s op).1.requestCounter)
    ∧ (∀ s : ClientState, (disconnect s).1.requestCounter = s.requestCounter)
    ∧ (∀ (s : ClientState) (accepts : Nat → Bool) (ports : List Nat),
        (connect s accepts ports).state.requestCounter = s.requestCounter)
    ∧ (∀ (s s' : ClientState) (ty : String) (fr : CommandFrame),
        sendCommand s ty = .ok (s', fr) →
          fr.request_id = mkRequestId s'.requestCounter
          ∧ s'.requestCounter = s.requestCounter + 1) := by
  refine ⟨?_, ?_, ?_, ?_, ?_⟩
  · intro ops
    exact (runOps_spec ops initialClientState).2.2
  · intro s op
    exact (step_spec s op).1
  · intro s
    rfl
  · intro s accepts ports
    unfold connect
    split <;> rfl
  · intro s s' ty fr h
    by_cases hw : s.wsOpen = true
    · simp only [sendCommand, hw, not_true, if_neg, ite_false, Except.ok.injEq,
        Prod.mk.injEq] at h
      obtain ⟨hs, hf⟩ := h
      rw [← hs, ← hf]
      exact ⟨rfl, rfl⟩
    · simp [sendCommand, hw] at h

/-- Claim C10 witness: distinct ids over a concrete trace that connects,
sends twice, disconnects, reconnects and sends again. -/
theorem keyvox_request_ids_never_reused_witness :
    (runOps initialClientState
        [.reconnect (fun _ => true) [9876], .send "ping", .send "server_info",
         .close, .reconnect (fun _ => true) [9876], .send "ping"]).2.Pairwise
      (fun f g => f.request_id ≠ g.request_id) :=
  keyvox_request_ids_never_reused.1
    [.reconnect (fun _ => true) [9876], .send "ping", .send "server_info",
     .close, .reconnect (fun _ => true) [9876], .send "ping"]

end Keyvox
